import Mathlib

/-
Verification of the backend-selection and build-configuration logic of
the mambametal repository (setup.py).  The Python script is embedded
shallowly: each top-level function of setup.py becomes a Lean function
over an explicit environment record, and the exceptional control flow
(ValueError, RuntimeError, and the NameError raised by the reference to
the undefined helper get_cuda_bare_metal_version) is made explicit with
Except.
-/

set_option autoImplicit false

namespace MambaSetup

/-- The host environment that setup.py reads: the value of sys.platform,
the raw macOS version string from platform.mac_ver, whether
torch.backends.mps.is_built reports true, the CUDA_HOME path (None or a
path), the MAMBA_LOCAL_VERSION environment variable (absent, or present
with a possibly empty value), and the value of the version literal read
from the package init file. -/
structure Env where
  sysPlatform : String
  macVerRaw : String
  mpsIsBuilt : Bool
  cudaHome : Option String
  mambaLocalVersion : Option String
  versionLiteral : String
  deriving Repr, DecidableEq

/-- The exceptions the script can raise during resolution: ValueError
(get_platform), RuntimeError (the CUDA version gate), and NameError
(reference to a name that is not defined anywhere in the file). -/
inductive SetupError where
  | valueError (msg : String)
  | runtimeError (msg : String)
  | nameError (missing : String)
  deriving Repr, DecidableEq

/-- One CppExtension record as constructed in setup.py: the module name,
the ordered source list, the extra_compile_args dict (an ordered mapping
from compiler role to flag list) and the include directories. -/
structure ExtModule where
  name : String
  sources : List String
  extra_compile_args : List (String × List String)
  include_dirs : List String
  deriving Repr, DecidableEq

/-- Embeds check_if_mps_supported of setup.py: true exactly when
sys.platform is darwin and the torch MPS backend is built. -/
def check_if_mps_supported (e : Env) : Bool :=
  e.sysPlatform == "darwin" && e.mpsIsBuilt

/-- Embeds the module-level constant MPS_BUILD = check_if_mps_supported(). -/
def MPS_BUILD (e : Env) : Bool :=
  check_if_mps_supported e

/-- Embeds the Python string method startswith: the second string is a
prefix of the character sequence of the first. -/
def startswith (s p : String) : Bool :=
  p.data.isPrefixOf s.data

/-- Embeds the macOS version truncation of get_platform:
".".join(platform.mac_ver()[0].split(".")[:2]). -/
def macTwoComponents (v : String) : String :=
  String.intercalate (".") ((v.splitOn (".")).take 2)

/-- Embeds get_platform of setup.py: maps sys.platform to the wheel
platform tag, raising ValueError on an unrecognized platform. -/
def get_platform (e : Env) : Except SetupError String :=
  if startswith e.sysPlatform ("linux") then
    Except.ok ("linux_x86_64")
  else if e.sysPlatform == "darwin" then
    Except.ok ("macosx_" ++ macTwoComponents e.macVerRaw ++ "_x86_64")
  else if e.sysPlatform == "win32" then
    Except.ok ("win_amd64")
  else
    Except.error (SetupError.valueError ("Unsupported platform: " ++ e.sysPlatform))

/-- Embeds get_package_version of setup.py: the local version read from
the MAMBA_LOCAL_VERSION environment variable is appended with a plus
sign only when the Python condition `if local_version` is truthy, that
is when the variable is present with a non-empty value. -/
def get_package_version (e : Env) : String :=
  match e.mambaLocalVersion with
  | some lv => if lv == "" then e.versionLiteral else e.versionLiteral ++ "+" ++ lv
  | none => e.versionLiteral

/-- Embeds append_nvcc_threads of setup.py. -/
def append_nvcc_threads (nvcc_extra_args : List String) : List String :=
  nvcc_extra_args ++ ["--threads", "4"]

/-- The extra_compile_args dict built in the MPS branch of
setup_mps_or_cuda (lines 78 to 81 of setup.py). -/
def mpsCompileArgs : List (String × List String) :=
  [ ("cxx", ["-O3", "-std=c++17"])
  , ("mps", ["-O3", "-std=c++17", "-framework", "Metal", "-mmacosx-version-min=10.14"]) ]

/-- The ext_modules list built in the MPS branch of setup_mps_or_cuda. -/
def mpsExtModules : List ExtModule :=
  [ { name := "selective_scan_mps"
    , sources :=
        [ "csrc/selective_scan/selective_scan.cpp"
        , "csrc/selective_scan/selective_scan_fwd_mps.cpp" ]
    , extra_compile_args := mpsCompileArgs
    , include_dirs := ["csrc/selective_scan"] } ]

/-- The extra_compile_args dict built in the CUDA branch of
setup_mps_or_cuda for a given cc_flag list (lines 108 to 120). -/
def cudaCompileArgs (cc_flag : List String) : List (String × List String) :=
  [ ("cxx", ["-O3", "-std=c++17"])
  , ("nvcc", append_nvcc_threads
      ([ "-O3"
       , "-std=c++17"
       , "-U__CUDA_NO_HALF_OPERATORS__"
       , "-U__CUDA_NO_HALF_CONVERSIONS__"
       , "--expt-relaxed-constexpr"
       , "--expt-extended-lambda"
       , "--use_fast_math" ] ++ cc_flag)) ]

/-- The ext_modules list built in the CUDA branch of setup_mps_or_cuda
for a given cc_flag list (lines 122 to 133). -/
def cudaExtModules (cc_flag : List String) : List ExtModule :=
  [ { name := "selective_scan_cuda"
    , sources :=
        [ "csrc/selective_scan/selective_scan.cpp"
        , "csrc/selective_scan/selective_scan_fwd_fp32.cu"
        , "csrc/selective_scan/selective_scan_fwd_fp16.cu" ]
    , extra_compile_args := cudaCompileArgs cc_flag
    , include_dirs := ["csrc/selective_scan"] } ]

/-- Embeds setup_mps_or_cuda of setup.py.  On darwin with MPS built it
returns the Metal configuration.  Otherwise, on linux or win32 with
CUDA_HOME set, the script evaluates get_cuda_bare_metal_version, a name
that is neither defined nor imported anywhere in the file, so Python
raises NameError at that point and the version comparison and gencode
assembly below it never execute.  On every other path cc_flag stays
empty and the CUDA extension configuration is returned. -/
def setup_mps_or_cuda (e : Env) :
    Except SetupError (List ExtModule × List (String × List String)) :=
  if e.sysPlatform == "darwin" && MPS_BUILD e then
    Except.ok (mpsExtModules, mpsCompileArgs)
  else
    if (e.sysPlatform == "linux" || e.sysPlatform == "win32") && e.cudaHome.isSome then
      Except.error (SetupError.nameError ("get_cuda_bare_metal_version"))
    else
      Except.ok (cudaExtModules [], cudaCompileArgs [])

/-- The version gate and gencode assembly written on lines 102 to 106 of
setup.py, taken in isolation.  In the script this block is dead code: it
sits after the call to the undefined get_cuda_bare_metal_version, so it
can never execute; it is embedded here to record what it would compute
on a CUDA version given as a (major, minor) pair. -/
def cuda_version_gate (bare_metal_version : Nat × Nat) : Except SetupError (List String) :=
  if bare_metal_version.1 < 11 ∨ (bare_metal_version.1 = 11 ∧ bare_metal_version.2 < 6) then
    Except.error (SetupError.runtimeError ("mamba_ssm is only supported on CUDA 11.6 and above."))
  else
    Except.ok
      [ "-gencode", "arch=compute_53,code=sm_53"
      , "-gencode", "arch=compute_62,code=sm_62"
      , "-gencode", "arch=compute_70,code=sm_70" ]

/-- Embeds the module-level execution order of setup.py: MPS_BUILD is
computed at import time, setup_mps_or_cuda runs at line 138, and
get_package_version is evaluated inside the setup call at line 143; if
setup_mps_or_cuda raises, the version is never computed. -/
def run_setup (e : Env) :
    Except SetupError (String × List ExtModule × List (String × List String)) :=
  match setup_mps_or_cuda e with
  | Except.ok (ems, eca) => Except.ok (get_package_version e, ems, eca)
  | Except.error err => Except.error err

/-- Counts the occurrences of a flag in a flag list. -/
def countFlag (flag : String) (flags : List String) : Nat :=
  flags.countP (fun f => f == flag)

/-- Counts the occurrences of a flag across every flag list of an
extra_compile_args dict. -/
def countFlagInArgs (flag : String) (eca : List (String × List String)) : Nat :=
  (eca.map (fun p => countFlag flag p.2)).sum

/-- A Linux host with CUDA_HOME set and package version 2.1.0. -/
def envLinuxCuda : Env :=
  { sysPlatform := "linux"
  , macVerRaw := ""
  , mpsIsBuilt := false
  , cudaHome := some ("/usr/local/cuda")
  , mambaLocalVersion := none
  , versionLiteral := "2.1.0" }

/-- A Linux host with no CUDA installation. -/
def envLinuxNoCuda : Env :=
  { envLinuxCuda with cudaHome := none }

/-- A macOS host whose torch build reports MPS available, with a CUDA
path also set. -/
def envMacMpsCuda : Env :=
  { sysPlatform := "darwin"
  , macVerRaw := "14.2.1"
  , mpsIsBuilt := true
  , cudaHome := some ("/usr/local/cuda")
  , mambaLocalVersion := none
  , versionLiteral := "2.1.0" }

/-- A macOS host with Metal unavailable and no CUDA. -/
def envMacNoMps : Env :=
  { envMacMpsCuda with mpsIsBuilt := false, cudaHome := none }

/-- An unrecognized host platform. -/
def envFreebsd : Env :=
  { envLinuxNoCuda with sysPlatform := "freebsd" }

/-- A host with version literal 1.2.3 and no local version override. -/
def envV123None : Env :=
  { envLinuxNoCuda with versionLiteral := "1.2.3" }

/-- A host with version literal 1.2.3 and local version override abc123. -/
def envV123Abc : Env :=
  { envV123None with mambaLocalVersion := some ("abc123") }

/-- A host with MAMBA_LOCAL_VERSION set to the empty string. -/
def envV123Empty : Env :=
  { envV123None with mambaLocalVersion := some ("") }

/-- Case analysis on setup_mps_or_cuda: every run either returns the
Metal configuration, fails with the NameError for the undefined helper,
or returns the CUDA configuration with an empty cc_flag list. -/
theorem setup_mps_or_cuda_cases (e : Env) :
    setup_mps_or_cuda e = Except.ok (mpsExtModules, mpsCompileArgs) ∨
    setup_mps_or_cuda e = Except.error (SetupError.nameError ("get_cuda_bare_metal_version")) ∨
    setup_mps_or_cuda e = Except.ok (cudaExtModules [], cudaCompileArgs []) := by
  unfold setup_mps_or_cuda
  split
  · exact Or.inl rfl
  · split
    · exact Or.inr (Or.inl rfl)
    · exact Or.inr (Or.inr rfl)

/-- Claim C5: for each of the three recognized OS identifiers,
get_platform returns the corresponding platform value, and for an
identifier that names none of the three (not a linux identifier, not
darwin, not win32) it fails with the unsupported-platform ValueError. -/
theorem C5_get_platform_total (e : Env) :
    (e.sysPlatform = "linux" → get_platform e = Except.ok ("linux_x86_64")) ∧
    (e.sysPlatform = "darwin" →
      get_platform e = Except.ok ("macosx_" ++ macTwoComponents e.macVerRaw ++ "_x86_64")) ∧
    (e.sysPlatform = "win32" → get_platform e = Except.ok ("win_amd64")) ∧
    (¬ startswith e.sysPlatform ("linux") → e.sysPlatform ≠ "darwin" →
      e.sysPlatform ≠ "win32" →
      get_platform e =
        Except.error (SetupError.valueError ("Unsupported platform: " ++ e.sysPlatform))) := by
  refine ⟨?_, ?_, ?_, ?_⟩
  · intro h; simp only [get_platform, h]; rfl
  · intro h; simp only [get_platform, h]; rfl
  · intro h; simp only [get_platform, h]; rfl
  · intro h1 h2 h3; simp [get_platform, h1, h2, h3]

/-- Witness for claim C5 at the concrete inputs linux and freebsd. -/
theorem C5_witness :
    get_platform envLinuxNoCuda = Except.ok ("linux_x86_64") ∧
    get_platform envFreebsd =
      Except.error (SetupError.valueError ("Unsupported platform: " ++ envFreebsd.sysPlatform)) :=
  ⟨(C5_get_platform_total envLinuxNoCuda).1 rfl,
   (C5_get_platform_total envFreebsd).2.2.2 (by decide) (by decide) (by decide)⟩

/-- Claim C4: on a macOS host where the MPS compute backend is reported
built, setup_mps_or_cuda selects the Metal configuration, whatever the
CUDA path is. -/
theorem C4_metal_selected_on_darwin (e : Env)
    (hos : e.sysPlatform = "darwin") (hmps : e.mpsIsBuilt = true) :
    setup_mps_or_cuda e = Except.ok (mpsExtModules, mpsCompileArgs) := by
  simp [setup_mps_or_cuda, MPS_BUILD, check_if_mps_supported, hos, hmps]

/-- Witness for claim C4: a macOS host with MPS built and a CUDA path
also set still gets the Metal configuration. -/
theorem C4_witness :
    setup_mps_or_cuda envMacMpsCuda = Except.ok (mpsExtModules, mpsCompileArgs) :=
  C4_metal_selected_on_darwin envMacMpsCuda rfl rfl

/-- Claim C6: version resolution returns the base version unchanged when
the local-version override is absent, and appends the override joined by
a plus sign when it is present with a non-empty value. -/
theorem C6_version_resolution (e : Env) :
    (e.mambaLocalVersion = none → get_package_version e = e.versionLiteral) ∧
    (∀ lv : String, e.mambaLocalVersion = some lv → lv ≠ "" →
      get_package_version e = e.versionLiteral ++ "+" ++ lv) := by
  constructor
  · intro h; simp [get_package_version, h]
  · intro lv h hne; simp [get_package_version, h, hne]

/-- Witness for claim C6 at the inputs of the spec: base 1.2.3 with no
override, and base 1.2.3 with override abc123. -/
theorem C6_witness :
    get_package_version envV123None = "1.2.3" ∧
    get_package_version envV123Abc = "1.2.3+abc123" :=
  ⟨(C6_version_resolution envV123None).1 rfl,
   ((C6_version_resolution envV123Abc).2) ("abc123") rfl (by decide)⟩

/-- Claim C10: when MAMBA_LOCAL_VERSION is present but empty, the Python
truthiness test treats it as absent and the base version is returned
with no plus suffix. -/
theorem C10_empty_override_ignored (e : Env)
    (h : e.mambaLocalVersion = some ("")) :
    get_package_version e = e.versionLiteral := by
  simp [get_package_version, h]

/-- Witness for claim C10 at a concrete environment. -/
theorem C10_witness : get_package_version envV123Empty = "1.2.3" :=
  C10_empty_override_ignored envV123Empty rfl

/-- Claim C7: every build that takes the Metal branch produces the
configuration whose host-compiler flag list holds -O3 and -std=c++17,
whose mps flag list links the Metal framework with the minimum
deployment target 10.14, and whose flag lists hold no -gencode flag at
all. -/
theorem C7_metal_flags (e : Env)
    (hos : e.sysPlatform = "darwin") (hmps : e.mpsIsBuilt = true) :
    setup_mps_or_cuda e = Except.ok (mpsExtModules, mpsCompileArgs) ∧
    mpsCompileArgs.lookup ("cxx") = some (["-O3", "-std=c++17"]) ∧
    (∃ fl, mpsCompileArgs.lookup ("mps") = some fl ∧
      "-framework" ∈ fl ∧ "Metal" ∈ fl ∧ "-mmacosx-version-min=10.14" ∈ fl) ∧
    countFlagInArgs ("-gencode") mpsCompileArgs = 0 := by
  refine ⟨?_, by decide, ⟨["-O3", "-std=c++17", "-framework", "Metal",
    "-mmacosx-version-min=10.14"], by decide, by decide, by decide, by decide⟩, by decide⟩
  simp [setup_mps_or_cuda, MPS_BUILD, check_if_mps_supported, hos, hmps]

/-- Witness for claim C7 at a concrete macOS environment with MPS. -/
theorem C7_witness :
    setup_mps_or_cuda envMacMpsCuda = Except.ok (mpsExtModules, mpsCompileArgs) ∧
    countFlagInArgs ("-gencode") mpsCompileArgs = 0 := by
  have h := C7_metal_flags envMacMpsCuda rfl rfl
  exact ⟨h.1, h.2.2.2⟩

/-- Counterexample for claim C1: on a macOS host with Metal unavailable
and no CUDA path, the script does not produce an empty extension list;
it falls into the CUDA branch and builds the selective_scan_cuda
extension with its three source files. -/
theorem C1_counterexample :
    setup_mps_or_cuda envMacNoMps = Except.ok (cudaExtModules [], cudaCompileArgs []) ∧
    (cudaExtModules []).length = 1 ∧
    (cudaExtModules []).map (fun m => m.name) = ["selective_scan_cuda"] ∧
    (cudaExtModules []).map (fun m => m.sources.length) = [3] := by
  refine ⟨rfl, by decide, by decide, by decide⟩

/-- Claim C1 as amended: on a macOS host with Metal unavailable the
pipeline never selects an empty None backend; whatever the CUDA path,
it returns the CUDA-branch configuration, a non-empty extension list
named selective_scan_cuda whose device flag list holds no -gencode
flags. -/
theorem C1_amended_no_none_backend (e : Env)
    (hos : e.sysPlatform = "darwin") (hmps : e.mpsIsBuilt = false) :
    setup_mps_or_cuda e = Except.ok (cudaExtModules [], cudaCompileArgs []) ∧
    cudaExtModules [] ≠ [] := by
  refine ⟨?_, by decide⟩
  simp [setup_mps_or_cuda, MPS_BUILD, check_if_mps_supported, hos, hmps]

/-- Witness for the amended claim C1 at a concrete environment. -/
theorem C1_witness :
    setup_mps_or_cuda envMacNoMps = Except.ok (cudaExtModules [], cudaCompileArgs []) ∧
    cudaExtModules [] ≠ [] :=
  C1_amended_no_none_backend envMacNoMps rfl rfl

/-- Claim C9: on every linux or win32 host with CUDA_HOME set, the
script evaluates the undefined name get_cuda_bare_metal_version and
fails with a NameError before any version comparison or gencode
assembly. -/
theorem C9_undefined_helper_name (e : Env)
    (hos : e.sysPlatform = "linux" ∨ e.sysPlatform = "win32")
    (hcuda : e.cudaHome.isSome = true) :
    run_setup e = Except.error (SetupError.nameError ("get_cuda_bare_metal_version")) := by
  rcases hos with h | h <;>
    simp [run_setup, setup_mps_or_cuda, MPS_BUILD, check_if_mps_supported, h, hcuda]

/-- Witness for claim C9 at a concrete Linux environment with CUDA. -/
theorem C9_witness :
    run_setup envLinuxCuda = Except.error (SetupError.nameError ("get_cuda_bare_metal_version")) :=
  C9_undefined_helper_name envLinuxCuda (Or.inl rfl) rfl

/-- Claim C2, evaluated on the code: on a Linux host with a CUDA path
set, the pipeline fails with the NameError for the undefined helper
before the version comparison can run, for every reported CUDA version;
the version gate written on lines 102 to 106, taken in isolation,
does reject 11.5 with the unsupported-version RuntimeError and accept
11.6 and 11.8, which is what the claim describes. -/
theorem C2_version_gate_unreached :
    run_setup envLinuxCuda = Except.error (SetupError.nameError ("get_cuda_bare_metal_version")) ∧
    cuda_version_gate (11, 5) =
      Except.error (SetupError.runtimeError ("mamba_ssm is only supported on CUDA 11.6 and above.")) ∧
    (∃ flags, cuda_version_gate (11, 6) = Except.ok flags) ∧
    (∃ flags, cuda_version_gate (11, 8) = Except.ok flags) :=
  ⟨rfl, rfl, ⟨_, rfl⟩, ⟨_, rfl⟩⟩

/-- Claim C3, evaluated on the code: the only environments whose device
flag list could receive the three -gencode pairs instead fail with the
NameError for the undefined helper, and every run that does return the
CUDA configuration carries zero -gencode flags; the device flag list it
does produce holds --use_fast_math and ends with the thread-count pair
--threads 4. -/
theorem C3_gencode_flags_never_emitted :
    run_setup envLinuxCuda = Except.error (SetupError.nameError ("get_cuda_bare_metal_version")) ∧
    setup_mps_or_cuda envLinuxNoCuda = Except.ok (cudaExtModules [], cudaCompileArgs []) ∧
    countFlagInArgs ("-gencode") (cudaCompileArgs []) = 0 ∧
    (cudaCompileArgs []).lookup ("nvcc") =
      some (["-O3", "-std=c++17", "-U__CUDA_NO_HALF_OPERATORS__",
        "-U__CUDA_NO_HALF_CONVERSIONS__", "--expt-relaxed-constexpr",
        "--expt-extended-lambda", "--use_fast_math", "--threads", "4"]) := by
  refine ⟨rfl, rfl, by decide, by decide⟩

/-- Claim C8: the pipeline is a pure function of the environment record,
so two runs on equal environments return identical results, and every
successful run selects exactly one backend: its extension list names
exactly selective_scan_mps or exactly selective_scan_cuda. -/
theorem C8_deterministic_one_backend (e1 e2 : Env) (heq : e1 = e2) :
    run_setup e1 = run_setup e2 ∧
    (∀ v ems eca, run_setup e1 = Except.ok (v, ems, eca) →
      ems.map (fun m => m.name) = ["selective_scan_mps"] ∨
      ems.map (fun m => m.name) = ["selective_scan_cuda"]) := by
  subst heq
  refine ⟨rfl, ?_⟩
  intro v ems eca h
  rcases setup_mps_or_cuda_cases e1 with hc | hc | hc <;>
    simp [run_setup, hc] at h
  · left
    rw [← h.2.1]
    rfl
  · right
    rw [← h.2.1]
    rfl

/-- Witness for claim C8 at a concrete environment, exhibiting the run
it performs and the single backend it selects. -/
theorem C8_witness :
    run_setup envMacMpsCuda = run_setup envMacMpsCuda ∧
    (mpsExtModules.map (fun m => m.name) = ["selective_scan_mps"] ∨
     mpsExtModules.map (fun m => m.name) = ["selective_scan_cuda"]) :=
  ⟨(C8_deterministic_one_backend envMacMpsCuda envMacMpsCuda rfl).1,
   (C8_deterministic_one_backend envMacMpsCuda envMacMpsCuda rfl).2
     (get_package_version envMacMpsCuda) mpsExtModules mpsCompileArgs rfl⟩

end MambaSetup
